import Mathlib

/-!
# CopenMed-DataValidator: shallow embedding and verification

This file embeds the core of the CopenMed-DataValidator repository
(`procesamiento_datoss.py`, `checkpoint_manager.py`, `checkpoint.py`,
`gestion_de_datos.py`) into Lean 4 and proves/refutes the frozen claims
about the natural-language specification.

Modelling conventions:
* Python strings are Lean `String`s; `str.upper()`, `str.strip()`,
  `str.split(sep, n)` and the `in` substring test are re-implemented
  character-exactly for the character set used by the repository.
* The external Ollama verifier is an oracle: each call's transport outcome
  (HTTP 200 body / non-200 status / raised exception) is a parameter.
* pandas DataFrames are column-name lists plus rows; a row of the engine
  is an association list from column name to cell value.
* File I/O of the checkpoint store is modelled by the sequence of on-disk
  contents the checkpoint file passes through during a save.
-/

namespace CopenMed

/-! ## Python string primitives -/

/-- Python whitespace characters relevant to `str.strip()` and `\s`
(space, tab, newline, carriage return, form feed, vertical tab). -/
def isPySpace (c : Char) : Bool :=
  c == ' ' || c == '\t' || c == '\n' || c == Char.ofNat 13 ||
  c == Char.ofNat 12 || c == Char.ofNat 11

/-- One character of Python `str.upper()`, for the ASCII range and the
Latin-1 lowercase letters that appear in this repository's strings
(for example á → Á, í → Í, ñ → Ñ). -/
def pyUpperChar (c : Char) : Char :=
  if 'a' ≤ c ∧ c ≤ 'z' then Char.ofNat (c.toNat - 32)
  else if 0xE0 ≤ c.toNat ∧ c.toNat ≤ 0xFE ∧ c.toNat ≠ 0xF7 then Char.ofNat (c.toNat - 32)
  else c

/-- Python `str.upper()` over the characters used by the repository. -/
def pyUpper (s : String) : String := ⟨s.data.map pyUpperChar⟩

/-- Python `str.strip()`: remove leading and trailing whitespace. -/
def pyStrip (s : String) : String :=
  ⟨((s.data.dropWhile isPySpace).reverse.dropWhile isPySpace).reverse⟩

/-- One character of Python `str.lower()` for the ASCII range (file
extensions are ASCII). -/
def pyLowerChar (c : Char) : Char :=
  if 'A' ≤ c ∧ c ≤ 'Z' then Char.ofNat (c.toNat + 32) else c

/-- Python `str.lower()` over ASCII, as applied to file extensions. -/
def pyLower (s : String) : String := ⟨s.data.map pyLowerChar⟩

/-- Is `sep` a prefix of `l` (character-wise)? -/
def esPrefijo : List Char → List Char → Bool
  | [], _ => true
  | _ :: _, [] => false
  | a :: as, b :: bs => a == b && esPrefijo as bs

/-- Find the first occurrence of `sep` in `l`; return the characters before
it and the characters after it. -/
def buscaSep (sep : List Char) : List Char → Option (List Char × List Char)
  | [] => if sep.isEmpty then some ([], []) else none
  | c :: rest =>
      if esPrefijo sep (c :: rest) then some ([], (c :: rest).drop sep.length)
      else (buscaSep sep rest).map (fun p => (c :: p.1, p.2))

/-- Python `sub in s` (substring containment). -/
def pyContains (s sub : String) : Bool := (buscaSep sub.data s.data).isSome

/-- The text after the first occurrence of `sep` in `s`: the second element
of Python `s.split(sep, 1)` when the separator occurs, `none` otherwise. -/
def pySplitAfter (s sep : String) : Option String :=
  (buscaSep sep.data s.data).map (fun p => ⟨p.2⟩)

/-! ## Verifier call (`VerificadorRelaciones.verificar_relacion`) -/

/-- Transport outcome of one call to the external Ollama verifier:
HTTP 200 with a response body, a non-200 status code, or a raised
exception (`requests` failure) with its message. -/
inductive ApiResp where
  | ok (body : String)
  | httpErr (code : Nat)
  | exn (msg : String)
deriving DecidableEq

/-- The dictionary returned by `verificar_relacion`.  The entity and
relation fields are `Option` because the error-path dictionaries of the
source omit those keys entirely. -/
structure Resultado where
  id : String
  entidad1 : Option String
  relacion : Option String
  entidad2 : Option String
  validez : String
  justificacion : String
deriving DecidableEq

/-- Embedding of `VerificadorRelaciones.verificar_relacion`
(`procesamiento_datoss.py` lines 44-112).  The prompt construction (which
consumes `fuerza_relacion`) and the network call are abstracted: `resp` is
the transport outcome of the call.  The classification of a 200 response
is exactly the source logic: upper-case the response, test the substrings
VÁLIDO and INVÁLIDO, and on the invalid branch take the stripped text after
the first INVÁLIDO of the upper-cased response (or the whole original
response when the marker is absent). -/
def verificar_relacion (id_relacion entidad1 tipo_relacion entidad2 : String)
    (fuerza_relacion : Option String) (resp : ApiResp) : Resultado :=
  match resp with
  | .ok respuesta =>
      let up := pyUpper respuesta
      let validez : String :=
        if pyContains up "VÁLIDO" && !pyContains up "INVÁLIDO" then "válido" else "inválido"
      let justificacion : String :=
        if pyContains up "VÁLIDO" && !pyContains up "INVÁLIDO" then ""
        else match pySplitAfter up "INVÁLIDO" with
          | some resto => pyStrip resto
          | none => respuesta
      { id := id_relacion, entidad1 := some entidad1, relacion := some tipo_relacion,
        entidad2 := some entidad2, validez := validez,
        justificacion := if validez == "inválido" then justificacion else "" }
  | .httpErr code =>
      { id := id_relacion, entidad1 := none, relacion := none, entidad2 := none,
        validez := "error", justificacion := "Error API: " ++ toString code }
  | .exn e =>
      { id := id_relacion, entidad1 := none, relacion := none, entidad2 := none,
        validez := "error", justificacion := "Error: " ++ e }

/-! ## Checkpoint store (`checkpoint_manager.py`) -/

/-- The checkpoint record (`CheckpointManager.default_checkpoint`).  The
`timestamp` field is not modelled: it is a wall-clock string that no claim
depends on. -/
structure Checkpoint where
  ultimo_id_procesado : Option String
  ids_procesados : List String
  total_procesados : Nat
deriving DecidableEq

/-- `CheckpointManager.update_checkpoint` (lines 34-41): replace the whole
checkpoint, recomputing `total_procesados = len(ids_procesados)`.  The
subsequent `save_checkpoint` disk write is recorded by the caller
(`procesar_datos` below) in its write trace. -/
def update_checkpoint (ultimo_id : String) (ids_procesados : List String) : Checkpoint :=
  { ultimo_id_procesado := some ultimo_id,
    ids_procesados := ids_procesados,
    total_procesados := ids_procesados.length }

/-- The checkpoint invariants stated by the specification data model. -/
def cpInv (c : Checkpoint) : Prop :=
  c.ids_procesados.Nodup ∧
  c.total_procesados = c.ids_procesados.length ∧
  ∀ u, c.ultimo_id_procesado = some u → u ∈ c.ids_procesados

/-! ## Verification engine (`VerificadorRelaciones.procesar_datos`) -/

/-- One DataFrame row: an association list from column name to cell value. -/
abbrev Fila := List (String × String)

/-- `fila[col]`: the cell of a row at a column (the engine only reads
columns it has checked to exist). -/
def getCol (fila : Fila) (col : String) : String :=
  match fila.find? (fun p => p.1 == col) with
  | some p => p.2
  | none => ""

/-- A pandas DataFrame as consumed by `procesar_datos`: the column names
and the ordered rows. -/
structure DataFrame where
  columns : List String
  rows : List Fila
deriving DecidableEq

/-- Engine configuration (`config.py`): the per-execution batch size and
the optional per-run cap (`max_procesar`; `none` models Python `None`,
and `some 0` is likewise falsy in the source's truthiness test). -/
structure Config where
  batch_size : Nat
  max_procesar : Option Nat
deriving DecidableEq

/-- Python truthiness of `self.max_procesar` (`None` and `0` are falsy). -/
def limite_activo : Option Nat → Bool
  | none => false
  | some n => n != 0

/-- Identifier-column auto-detection (`procesar_datos` line 131):
`"ID"` if present, else `"Linea"`, else no identifier column. -/
def idColumna (cols : List String) : Option String :=
  if cols.contains "ID" then some "ID"
  else if cols.contains "Linea" then some "Linea"
  else none

/-- Related-element column auto-detection (`procesar_datos` lines 138-139). -/
def elemColumna (cols : List String) : Option String :=
  if cols.contains "Elemento Relacionado" then some "Elemento Relacionado"
  else if cols.contains "ElementoRelacionado" then some "ElementoRelacionado"
  else none

/-- Line 152: the rows whose stringified identifier is not in the set of
already-processed ids (`set(...)` is modelled by `List.dedup`). -/
def filtraNoProcesados (cp : Checkpoint) (idc : String) (rows : List Fila) : List Fila :=
  rows.filter (fun f => !((cp.ids_procesados.dedup).contains (getCol f idc)))

/-- The number of input rows whose identifier is already processed. -/
def yaProcesadas (cp : Checkpoint) (idc : String) (rows : List Fila) : Nat :=
  (rows.filter (fun f => (cp.ids_procesados.dedup).contains (getCol f idc))).length

/-- Lines 152-156: filter out processed rows, then truncate to the first
`max_procesar` rows when that cap is truthy and exceeded (`df.head(n)`). -/
def candidatos (cfg : Config) (cp : Checkpoint) (idc : String) (rows : List Fila) : List Fila :=
  let datos_filtrados := filtraNoProcesados cp idc rows
  if limite_activo cfg.max_procesar && decide (datos_filtrados.length > cfg.max_procesar.getD 0)
  then datos_filtrados.take (cfg.max_procesar.getD 0)
  else datos_filtrados

/-- The loop state of `procesar_datos`: collected invalid/error outcomes,
the working processed-id list, the in-memory checkpoint, and the trace of
checkpoints written to disk so far (each `update_checkpoint` call saves). -/
structure PasoSt where
  resultados : List Resultado
  nuevos : List String
  cp : Checkpoint
  escritos : List Checkpoint
deriving DecidableEq

/-- The body of the row loop (`procesar_datos` lines 168-188): verify the
row, keep the outcome when invalid or error, append the id to the working
list, and flush the checkpoint every 10 entries of that list.  `api` gives
the transport outcome of the verifier call for the row.  The source walks
`datos_filtrados` in slices of `batch_size` rows; for any positive
`batch_size` that double loop visits exactly these rows in this order, so
it is embedded as a single fold. -/
def paso (api : Fila → ApiResp) (idc elc : String) (tiene_fuerza : Bool)
    (st : PasoSt) (fila : Fila) : PasoSt :=
  let id_rel := getCol fila idc
  let resultado := verificar_relacion id_rel (getCol fila "Entidad") (getCol fila "Relación")
      (getCol fila elc)
      (if tiene_fuerza then some (getCol fila "fuerza_relacion") else none) (api fila)
  let resultados := if resultado.validez == "inválido" || resultado.validez == "error"
                    then st.resultados ++ [resultado] else st.resultados
  let nuevos := st.nuevos ++ [id_rel]
  if nuevos.length % 10 == 0 then
    let cp1 := update_checkpoint id_rel nuevos
    ⟨resultados, nuevos, cp1, st.escritos ++ [cp1]⟩
  else ⟨resultados, nuevos, st.cp, st.escritos⟩

/-- Embedding of `VerificadorRelaciones.procesar_datos`
(`procesamiento_datoss.py` lines 114-194).  Returns the Python return
value `(resultados, len(datos_filtrados))` together with the final
in-memory checkpoint, or the message of the raised exception when a
required column is missing; paired with the trace of checkpoints written
to disk during the call.  The source's final update is guarded by
`datos_filtrados.shape[0] > 0`, which always holds on the non-empty
branch reached here. -/
def procesar_datos (cfg : Config) (api : Fila → ApiResp) (cp : Checkpoint)
    (datos : DataFrame) :
    Except String (List Resultado × Nat × Checkpoint) × List Checkpoint :=
  match idColumna datos.columns with
  | none => (.error "No se encontró la columna de identificación en los datos.", [])
  | some id_col =>
    match elemColumna datos.columns with
    | none => (.error "No se encontró la columna del elemento relacionado en los datos.", [])
    | some elem_col =>
      if datos.columns.contains "Entidad" then
        if datos.columns.contains "Relación" then
          let tiene_fuerza := datos.columns.contains "fuerza_relacion"
          let ids_procesados := cp.ids_procesados.dedup
          let datos_filtrados := candidatos cfg cp id_col datos.rows
          match datos_filtrados with
          | [] => (.ok ([], 0, cp), [])
          | f :: fs =>
            let st := (f :: fs).foldl (paso api id_col elem_col tiene_fuerza)
                        ⟨[], ids_procesados, cp, []⟩
            let ultimo_id := getCol ((f :: fs).getLast (by simp)) id_col
            let cpf := update_checkpoint ultimo_id st.nuevos
            (.ok (st.resultados, (f :: fs).length, cpf), st.escritos ++ [cpf])
        else (.error "No se encontró la columna \x27Relación\x27 en los datos.", [])
      else (.error "No se encontró la columna \x27Entidad\x27 en los datos.", [])

/-! ## A backtracking regular-expression engine

`DataLoader._parse_data_entry` is driven by four `re.match` calls.  The
engine below reproduces Python's leftmost-greedy backtracking semantics
for exactly the constructs those patterns use: character classes,
concatenation, prioritized alternation, greedy star, capture groups and
the end anchor.  (Python's `$` also matches just before one trailing
newline; the entries parsed by the repository are `strip()`ped lines, so
`$` is modelled as end of input.) -/

/-- Capture assignments: group index paired with the captured characters. -/
abbrev Caps := List (Nat × List Char)

/-- Regular-expression abstract syntax. -/
inductive Rx where
  | eps
  | cls (p : Char → Bool)
  | cat (a b : Rx)
  | alt (a b : Rx)
  | star (a : Rx)
  | grp (i : Nat) (a : Rx)
  | eol

/-- Structural size of a pattern, used to compute a sufficient fuel. -/
def rxTam : Rx → Nat
  | .eps => 1
  | .cls _ => 1
  | .cat a b => rxTam a + rxTam b + 1
  | .alt a b => rxTam a + rxTam b + 1
  | .star a => rxTam a + 1
  | .grp _ a => rxTam a + 1
  | .eol => 1

/-- All ways `r` can match a prefix of the input, in backtracking priority
order (leftmost-greedy first, as in Python `re`): each result is the
remaining suffix and the captures made.  The recursion is structural on
`fuel`, which is consumed one unit per call; along any call path a `star`
self-recursion happens at most `input.length` times (the strict-progress
filter) and between two of those the pattern descends structurally, so
fuel `(rxTam r + 1) * (input.length + 2)` — supplied by `reMatch` below —
is always sufficient. -/
def rxRun : Nat → Rx → List Char → List (List Char × Caps)
  | 0, _, _ => []
  | _ + 1, .eps, s => [(s, [])]
  | _ + 1, .cls _, [] => []
  | _ + 1, .cls p, c :: s => if p c then [(s, [])] else []
  | fuel + 1, .cat a b, s =>
      (rxRun fuel a s).flatMap (fun pa =>
        (rxRun fuel b pa.1).map (fun pb => (pb.1, pa.2 ++ pb.2)))
  | fuel + 1, .alt a b, s => rxRun fuel a s ++ rxRun fuel b s
  | fuel + 1, .star a, s =>
      ((rxRun fuel a s).filter (fun pa => pa.1.length < s.length)).flatMap
        (fun pa => (rxRun fuel (.star a) pa.1).map (fun pb => (pb.1, pa.2 ++ pb.2)))
      ++ [(s, [])]
  | fuel + 1, .grp i a, s =>
      (rxRun fuel a s).map (fun pa => (pa.1, pa.2 ++ [(i, s.take (s.length - pa.1.length))]))
  | _ + 1, .eol, s => if s.isEmpty then [(s, [])] else []

/-- Python `re.match(pattern, s)`: attempt a match anchored at the start of
`s`; on success return the captures and the end position of the match
(`match.end()`). -/
def reMatch (r : Rx) (s : String) : Option (Caps × Nat) :=
  match rxRun ((rxTam r + 1) * (s.length + 2)) r s.data with
  | [] => none
  | p :: _ => some (p.2, s.length - p.1.length)

/-- `match.group(i)` as a string. -/
def grupo (caps : Caps) (i : Nat) : String :=
  ⟨((caps.find? (fun p => p.1 == i)).map (fun p => p.2)).getD []⟩

/-! Pattern building blocks. -/

def rxChar (c : Char) : Rx := .cls (fun d => d == c)

def rxPlus (a : Rx) : Rx := .cat a (.star a)

def rxOpt (a : Rx) : Rx := .alt a .eps

def rxDigit : Rx := .cls Char.isDigit

def rxWs : Rx := .cls isPySpace

def rxNoParen : Rx := .cls (fun c => c != ')')

def rxNoComma : Rx := .cls (fun c => c != ',')

def rxDot : Rx := .cls (fun c => c != '\n')

def rxAny : Rx := .cls (fun _ => true)

def rxScoreChar : Rx := .cls (fun c => c.isDigit || c == '.')

def rxCat (l : List Rx) : Rx := l.foldr .cat .eps

/-- The entity capture of the extended grammars, Python
`[^)]+(?:\([^)]*\)[^)]*)*`: non-parenthesis text that may embed
one-level parenthesized runs. -/
def rxGrupoEntidad : Rx :=
  rxCat [rxPlus rxNoParen,
         .star (rxCat [rxChar '(', .star rxNoParen, rxChar ')', .star rxNoParen])]

/-! ## The parser (`DataLoader._parse_data_entry`) -/

/-- Rule 1 outer pattern, Python raw pattern
`^(\d+):\s*\((.*)\)\s*([\d.]+)(?:,)?$`. -/
def patronAnidado : Rx :=
  rxCat [.grp 1 (rxPlus rxDigit), rxChar ':', .star rxWs, rxChar '(',
         .grp 2 (.star rxDot), rxChar ')', .star rxWs,
         .grp 3 (rxPlus rxScoreChar), rxOpt (rxChar ','), .eol]

/-- Rule 1 first inner pattern, Python
`^\s*(\d+)\s*\(([^)]+(?:\([^)]*\)[^)]*)*)\)\s*,` (no end anchor: the
source reads its `end()` position). -/
def patronCodigo1 : Rx :=
  rxCat [.star rxWs, .grp 1 (rxPlus rxDigit), .star rxWs, rxChar '(',
         .grp 2 rxGrupoEntidad, rxChar ')', .star rxWs, rxChar ',']

/-- Rule 1 second inner pattern, Python
`^([^,]+)\s*,\s*(\d+)\s*\(([^)]+(?:\([^)]*\)[^)]*)*)\)\s*$`. -/
def patronRelacion : Rx :=
  rxCat [.grp 1 (rxPlus rxNoComma), .star rxWs, rxChar ',', .star rxWs,
         .grp 2 (rxPlus rxDigit), .star rxWs, rxChar '(',
         .grp 3 rxGrupoEntidad, rxChar ')', .star rxWs, .eol]

/-- Rule 2, the flat extended pattern, Python
`^(\d+):\s*\(\s*(\d+)\s*\(([^)]+)\)\s*,\s*([^,]+)\s*,\s*(\d+)\s*\(([^)]+)\)\s*\)\s*([\d.]+)(?:,)?$`. -/
def patronExtendido : Rx :=
  rxCat [.grp 1 (rxPlus rxDigit), rxChar ':', .star rxWs, rxChar '(', .star rxWs,
         .grp 2 (rxPlus rxDigit), .star rxWs, rxChar '(', .grp 3 (rxPlus rxNoParen), rxChar ')',
         .star rxWs, rxChar ',', .star rxWs, .grp 4 (rxPlus rxNoComma), .star rxWs, rxChar ',',
         .star rxWs, .grp 5 (rxPlus rxDigit), .star rxWs, rxChar '(', .grp 6 (rxPlus rxNoParen),
         rxChar ')', .star rxWs, rxChar ')', .star rxWs, .grp 7 (rxPlus rxScoreChar),
         rxOpt (rxChar ','), .eol]

/-- Rule 3, the legacy pattern, Python `^(\d+):\s*\((.*)\)$` compiled with
`re.DOTALL` (so `.` matches any character). -/
def patronOriginal : Rx :=
  rxCat [.grp 1 (rxPlus rxDigit), rxChar ':', .star rxWs, rxChar '(',
         .grp 2 (.star rxAny), rxChar ')', .eol]

/-- The nested-extended rule of `_parse_data_entry` (lines 285-308): outer
match, then the first-code match on the inner content, then the
relation/second-code match on the stripped remainder.  Returns the
Extended-7 tuple on success. -/
def parse_nested (entry : String) :
    Option (String × String × String × String × String × String × String) :=
  match reMatch patronAnidado entry with
  | none => none
  | some (caps, _) =>
      let line_num := grupo caps 1
      let inner_content := grupo caps 2
      let score := grupo caps 3
      match reMatch patronCodigo1 inner_content with
      | none => none
      | some (caps1, posFin) =>
          let code1 := grupo caps1 1
          let entity := pyStrip (grupo caps1 2)
          let remaining := pyStrip ⟨inner_content.data.drop posFin⟩
          match reMatch patronRelacion remaining with
          | none => none
          | some (caps2, _) =>
              some (line_num, code1, entity, pyStrip (grupo caps2 1), grupo caps2 2,
                    pyStrip (grupo caps2 3), score)

/-- The tuple returned by `_parse_data_entry`: an Extended-7 record, a
Legacy-4 record (whose trailing fields can be Python `None` when fewer
than 3 comma-separated pieces are present), or the all-`None` malformed
tuple. -/
inductive Parsed where
  | ext7 (linea codigo1 entidad relacion codigo2 elemento score : String)
  | legacy4 (id entidad1 : String) (relacion elemento : Option String)
  | malformed
deriving DecidableEq

/-- Python `s.split(",", maxsplit 2)` over characters. -/
def splitComa2 (l : List Char) : List (List Char) :=
  match buscaSep [','] l with
  | none => [l]
  | some (a, b) =>
      match buscaSep [','] b with
      | none => [a, b]
      | some (c, d) => [a, c, d]

/-- Embedding of `DataLoader._parse_data_entry` (`gestion_de_datos.py`
lines 264-337): the three grammars are tried in strict order, first match
wins; when none matches the all-`None` tuple is returned.  (The source's
`except` arm cannot fire in this pure model.) -/
def parse_data_entry (entry : String) : Parsed :=
  match parse_nested entry with
  | some (l, c1, e, r, c2, el, sc) => .ext7 l c1 e r c2 el sc
  | none =>
      match reMatch patronExtendido entry with
      | some (caps, _) =>
          .ext7 (grupo caps 1) (grupo caps 2) (grupo caps 3) (grupo caps 4)
                (grupo caps 5) (grupo caps 6) (grupo caps 7)
      | none =>
          match reMatch patronOriginal entry with
          | some (caps, _) =>
              let id_num := grupo caps 1
              let content := (splitComa2 (grupo caps 2).data).map (fun l => pyStrip ⟨l⟩)
              .legacy4 id_num (content.getD 0 "") (content.get? 1) (content.get? 2)
          | none => .malformed

/-! ## Source loader (`DataLoader`, `gestion_de_datos.py`) -/

/-- A loader-side table: column names plus rows of nullable cells
(pandas NaN/None is `none`). -/
structure TablaOpt where
  columns : List String
  rows : List (List (Option String))
deriving DecidableEq

/-- `DataLoader._remove_garbage_data` (lines 257-262): the body is
`df.dropna()`, which with pandas defaults removes every row containing at
least one null value. -/
def remove_garbage_data (t : TablaOpt) : TablaOpt :=
  ⟨t.columns, t.rows.filter (fun r => r.all (fun c => c.isSome))⟩

/-- Column projection `df[columns_to_keep]`: select the named columns, in
the requested order. -/
def proyectaColumnas (t : TablaOpt) (cols : List String) : TablaOpt :=
  ⟨cols, t.rows.map (fun r => cols.map (fun c =>
      match t.columns.indexOf? c with
      | some i => r.getD i none
      | none => none))⟩

/-- `DataLoader._process_dataframe` (lines 225-255) restricted to the two
steps the claims touch: the optional column projection (skipped when
`columns_to_keep` is Python-falsy, that is `None` or the empty list) and
the optional garbage removal.  The column-`A` re-parsing step (lines
245-254) is not modelled; no claim concerns it. -/
def process_dataframe (t : TablaOpt) (columns_to_keep : Option (List String))
    (remove_garbage : Bool) : TablaOpt :=
  let t1 := match columns_to_keep with
            | some (c :: cs) => proyectaColumnas t (c :: cs)
            | _ => t
  if remove_garbage then remove_garbage_data t1 else t1

/-- Definition following the specification words for `strip_invalid_rows`
(spec §4.2), not the source: drop exactly the rows that are entirely
empty; keep every row with at least one non-empty field. -/
def quitaFilasTotalmenteVacias (t : TablaOpt) : TablaOpt :=
  ⟨t.columns, t.rows.filter (fun r => r.any (fun c => c.isSome))⟩

/-- `os.path.splitext(path)[1]`: the extension of the basename, including
its dot; empty when the basename has no dot after its leading dots. -/
def splitextExt (path : String) : String :=
  let base := (path.data.reverse.takeWhile (fun c => c != '/')).reverse
  let cuerpo := base.dropWhile (fun c => c == '.')
  let colaRev := cuerpo.reverse.takeWhile (fun c => c != '.')
  if colaRev.length == cuerpo.length then ""
  else ⟨'.' :: colaRev.reverse⟩

/-- The format dispatch of `DataLoader.load_csv_or_excel` (lines 81-121)
before its exception handler.  The pandas/file readers and the
post-processing they feed are abstracted by the oracle `leer`, applied to
the recognized extension; an unsupported extension raises the source's
`ValueError`, modelled as `Except.error` with the exact message. -/
def intento_carga (leer : String → Except String TablaOpt) (path : String) :
    Except String TablaOpt :=
  let file_extension := pyLower (splitextExt path)
  if file_extension == ".csv" then leer file_extension
  else if file_extension == ".xlsx" || file_extension == ".xls" then leer file_extension
  else if file_extension == ".txt" then leer file_extension
  else .error ("Formato de archivo no soportado: " ++ file_extension)

/-- `DataLoader.load_csv_or_excel` (lines 81-143) as observed by callers:
the whole body sits in `try/except Exception`, and the handler logs and
returns `pd.DataFrame()` — so every failure, including the unsupported
format `ValueError`, is swallowed into an empty DataFrame. -/
def load_csv_or_excel (leer : String → Except String TablaOpt) (path : String) : TablaOpt :=
  match intento_carga leer path with
  | .ok df => df
  | .error _ => ⟨[], []⟩

/-! ## Checkpoint persistence (`save_checkpoint` / `guardar_checkpoint`) -/

/-- The sequence of on-disk contents the checkpoint file passes through
during `CheckpointManager.save_checkpoint` (`checkpoint_manager.py` lines
30-32): the previous content, then the empty file the moment
`open(self.path, "w")` truncates it, then the full serialization once
`json.dump` finishes.  A crash between truncation and completion leaves
the middle state. -/
def save_checkpoint_estados (previo serializado : String) : List String :=
  [previo, "", serializado]

/-- The same write-in-place trace for `GestionCheckpoint.guardar_checkpoint`
(`checkpoint.py` lines 44-49), which also opens the target with mode "w"
and dumps directly into it. -/
def guardar_checkpoint_estados (previo serializado : String) : List String :=
  [previo, "", serializado]

/-- Crash atomicity of a write trace: every observable on-disk state is
either the previous full content or the new full content. -/
def escrituraAtomica (estados : List String) (previo nuevo : String) : Prop :=
  ∀ s ∈ estados, s = previo ∨ s = nuevo

/-! ## Concrete example inputs used by counterexamples and witnesses -/

/-- The fresh checkpoint of `default_checkpoint` (timestamp elided). -/
def cpVacio : Checkpoint := ⟨none, [], 0⟩

/-- A verifier oracle whose every response is the bare affirmation. -/
def apiValido : Fila → ApiResp := fun _ => ApiResp.ok "VÁLIDO"

/-- A legacy-schema row. -/
def filaDe (i e r el : String) : Fila :=
  [("ID", i), ("Entidad", e), ("Relación", r), ("Elemento Relacionado", el)]

/-- A two-row legacy batch with distinct identifiers. -/
def dfDos : DataFrame :=
  ⟨["ID", "Entidad", "Relación", "Elemento Relacionado"],
   [filaDe "1" "Aspirina" "causa" "Urticaria", filaDe "2" "Diabetes" "implica" "Polidipsia"]⟩

/-- A two-row legacy batch whose rows repeat the identifier 29. -/
def dfDup : DataFrame :=
  ⟨["ID", "Entidad", "Relación", "Elemento Relacionado"],
   [filaDe "29" "Aspirina" "causa" "Urticaria", filaDe "29" "Aspirina" "causa" "Asma"]⟩

/-! ## Supporting lemmas -/

lemma paso_nuevos_single (api : Fila → ApiResp) (idc elc : String) (tf : Bool)
    (st : PasoSt) (fila : Fila) :
    (paso api idc elc tf st fila).nuevos = st.nuevos ++ [getCol fila idc] := by
  by_cases h : (st.nuevos.length + 1) % 10 = 0 <;> simp [paso, h]

lemma paso_escritos_cases (api : Fila → ApiResp) (idc elc : String) (tf : Bool)
    (st : PasoSt) (fila : Fila) :
    (paso api idc elc tf st fila).escritos = st.escritos ∨
    (paso api idc elc tf st fila).escritos
      = st.escritos ++ [update_checkpoint (getCol fila idc) (st.nuevos ++ [getCol fila idc])] := by
  by_cases h : (st.nuevos.length + 1) % 10 = 0
  · refine Or.inr ?_
    simp [paso, h]
  · refine Or.inl ?_
    simp [paso, h]

lemma foldl_paso_nuevos (api : Fila → ApiResp) (idc elc : String) (tf : Bool)
    (l : List Fila) :
    ∀ st : PasoSt,
      (l.foldl (paso api idc elc tf) st).nuevos = st.nuevos ++ l.map (fun f => getCol f idc) := by
  induction l with
  | nil => intro st; simp
  | cons f t ih =>
      intro st
      rw [List.foldl_cons, ih, paso_nuevos_single]
      simp

lemma cpInv_update (u : String) (ids : List String) (hnd : ids.Nodup) (hm : u ∈ ids) :
    cpInv (update_checkpoint u ids) := by
  refine ⟨hnd, rfl, ?_⟩
  intro v hv
  cases hv
  exact hm

lemma foldl_paso_inv (api : Fila → ApiResp) (idc elc : String) (tf : Bool)
    (l : List Fila) :
    ∀ st : PasoSt,
      (st.nuevos ++ l.map (fun f => getCol f idc)).Nodup →
      (∀ c ∈ st.escritos, cpInv c) →
      ∀ c ∈ (l.foldl (paso api idc elc tf) st).escritos, cpInv c := by
  induction l with
  | nil => intro st _ hesc; simpa using hesc
  | cons f t ih =>
      intro st hnd hesc
      rw [List.foldl_cons]
      refine ih _ ?_ ?_
      · rw [paso_nuevos_single]
        simpa [List.append_assoc] using hnd
      · intro c hc
        rcases paso_escritos_cases api idc elc tf st f with he | he <;> rw [he] at hc
        · exact hesc c hc
        · rcases List.mem_append.mp hc with h1 | h1
          · exact hesc c h1
          · have hce : c = update_checkpoint (getCol f idc) (st.nuevos ++ [getCol f idc]) := by
              simpa using h1
            subst hce
            apply cpInv_update
            · have hnd2 : ((st.nuevos ++ [getCol f idc]) ++ t.map (fun f => getCol f idc)).Nodup := by
                simpa [List.append_assoc] using hnd
              exact hnd2.of_append_left
            · simp

lemma procesar_vacio (cfg : Config) (api : Fila → ApiResp) (cp : Checkpoint) (df : DataFrame)
    (idc elc : String)
    (hid : idColumna df.columns = some idc)
    (helem : elemColumna df.columns = some elc)
    (hent : df.columns.contains "Entidad" = true)
    (hrel : df.columns.contains "Relación" = true)
    (hc : candidatos cfg cp idc df.rows = []) :
    procesar_datos cfg api cp df = (.ok ([], 0, cp), []) := by
  unfold procesar_datos
  rw [hid, helem]
  simp only [hent, hrel, if_true, hc]

lemma procesar_no_vacio (cfg : Config) (api : Fila → ApiResp) (cp : Checkpoint) (df : DataFrame)
    (idc elc : String)
    (hid : idColumna df.columns = some idc)
    (helem : elemColumna df.columns = some elc)
    (hent : df.columns.contains "Entidad" = true)
    (hrel : df.columns.contains "Relación" = true)
    (f : Fila) (fs : List Fila)
    (hc : candidatos cfg cp idc df.rows = f :: fs) :
    procesar_datos cfg api cp df =
      ((Except.ok
          (((f :: fs).foldl (paso api idc elc (df.columns.contains "fuerza_relacion"))
              ⟨[], cp.ids_procesados.dedup, cp, []⟩).resultados,
           (f :: fs).length,
           update_checkpoint (getCol ((f :: fs).getLast (List.cons_ne_nil f fs)) idc)
             (((f :: fs).foldl (paso api idc elc (df.columns.contains "fuerza_relacion"))
                 ⟨[], cp.ids_procesados.dedup, cp, []⟩).nuevos))),
       ((f :: fs).foldl (paso api idc elc (df.columns.contains "fuerza_relacion"))
           ⟨[], cp.ids_procesados.dedup, cp, []⟩).escritos ++
         [update_checkpoint (getCol ((f :: fs).getLast (List.cons_ne_nil f fs)) idc)
            (((f :: fs).foldl (paso api idc elc (df.columns.contains "fuerza_relacion"))
                ⟨[], cp.ids_procesados.dedup, cp, []⟩).nuevos)]) := by
  unfold procesar_datos
  rw [hid, helem]
  simp only [hent, hrel, if_true, hc]


lemma candidatos_sublist (cfg : Config) (cp : Checkpoint) (idc : String) (rows : List Fila) :
    List.Sublist (candidatos cfg cp idc rows) rows := by
  simp only [candidatos]
  split
  · exact (List.take_sublist _ _).trans (List.filter_sublist rows)
  · exact List.filter_sublist rows

lemma candidatos_pred (cfg : Config) (cp : Checkpoint) (idc : String) (rows : List Fila) :
    ∀ f ∈ candidatos cfg cp idc rows,
      (cp.ids_procesados.dedup).contains (getCol f idc) = false := by
  intro f hf
  have hf2 : f ∈ filtraNoProcesados cp idc rows := by
    simp only [candidatos] at hf
    split at hf
    · exact List.take_subset _ _ hf
    · exact hf
  have hp := List.of_mem_filter hf2
  simpa using hp

lemma nuevos_nodup (cfg : Config) (cp : Checkpoint) (idc : String) (rows : List Fila)
    (hnd : (rows.map (fun f => getCol f idc)).Nodup) :
    (cp.ids_procesados.dedup ++ (candidatos cfg cp idc rows).map (fun f => getCol f idc)).Nodup := by
  refine List.Nodup.append cp.ids_procesados.nodup_dedup
    (hnd.sublist ((candidatos_sublist cfg cp idc rows).map _)) ?_
  intro x hx hy
  rcases List.mem_map.mp hy with ⟨f, hf, rfl⟩
  have hfalse := candidatos_pred cfg cp idc rows f hf
  have htrue : (cp.ids_procesados.dedup).contains (getCol f idc) = true := by simpa using hx
  rw [hfalse] at htrue
  exact Bool.false_ne_true htrue

lemma filtra_mas_ya (cp : Checkpoint) (idc : String) (rows : List Fila) :
    (filtraNoProcesados cp idc rows).length + yaProcesadas cp idc rows = rows.length := by
  unfold filtraNoProcesados yaProcesadas
  induction rows with
  | nil => rfl
  | cons a t ih =>
      rw [List.filter_cons, List.filter_cons]
      cases h : (cp.ids_procesados.dedup).contains (getCol a idc)
      · rw [if_pos (by simp [h]), if_neg (by simp [h])]
        simp only [List.length_cons]
        omega
      · rw [if_neg (by simp [h]), if_pos (by simp [h])]
        simp only [List.length_cons]
        omega

lemma candidatos_sin_limite (cfg : Config) (cp : Checkpoint) (idc : String) (rows : List Fila)
    (hlim : limite_activo cfg.max_procesar = false ∨
      (filtraNoProcesados cp idc rows).length ≤ cfg.max_procesar.getD 0) :
    candidatos cfg cp idc rows = filtraNoProcesados cp idc rows := by
  simp only [candidatos]
  rcases hlim with h | h
  · simp [h]
  · simp [Nat.not_lt.mpr h]

lemma candidatos_nil_de_filtra (cfg : Config) (cp : Checkpoint) (idc : String) (rows : List Fila)
    (h : filtraNoProcesados cp idc rows = []) :
    candidatos cfg cp idc rows = [] := by
  simp only [candidatos, h]
  split <;> simp

lemma filtra_nil_de_mem (cp : Checkpoint) (idc : String) (rows : List Fila)
    (hids : ∀ r ∈ rows, getCol r idc ∈ cp.ids_procesados) :
    filtraNoProcesados cp idc rows = [] := by
  refine List.filter_eq_nil_iff.mpr ?_
  intro a ha
  have hm : getCol a idc ∈ cp.ids_procesados.dedup := List.mem_dedup.mpr (hids a ha)
  simp [hm]


/-! ## The claims -/

/-- C1, counterexample to the claim as stated: with the configured cap
`max_procesar = 1` (the shipped default is 5) and a fresh batch of N = 2
distinct ids, one full `procesar_datos` run raises `total_procesados` by 1,
not by N minus the 0 already-present ids, and a second run on the same
batch considers 1 row, not 0. -/
theorem c1_contraejemplo :
    procesar_datos ⟨32, some 1⟩ apiValido cpVacio dfDos
      = (.ok ([], 1, ⟨some "1", ["1"], 1⟩), [⟨some "1", ["1"], 1⟩]) ∧
    dfDos.rows.length = 2 ∧
    yaProcesadas cpVacio "ID" dfDos.rows = 0 ∧
    (⟨some "1", ["1"], 1⟩ : Checkpoint).total_procesados
      ≠ cpVacio.total_procesados + (dfDos.rows.length - yaProcesadas cpVacio "ID" dfDos.rows) ∧
    procesar_datos ⟨32, some 1⟩ apiValido ⟨some "1", ["1"], 1⟩ dfDos
      = (.ok ([], 1, ⟨some "2", ["1", "2"], 2⟩), [⟨some "2", ["1", "2"], 2⟩]) :=
  ⟨rfl, rfl, rfl, by decide, rfl⟩

/-- C1 (amended): for a batch of distinct identifiers, starting from a
checkpoint whose `total_procesados` equals its number of distinct stored
ids, and provided the per-run cap is unset (None/0) or at least the
candidate count, one full `procesar_datos` run raises `total_procesados`
by exactly N minus the ids already present, returns that count, and a
second run on the same batch returns `([], 0)` without writing any
checkpoint (empty write trace, checkpoint returned unchanged). -/
theorem c1_teorema (cfg : Config) (api : Fila → ApiResp) (cp : Checkpoint) (df : DataFrame)
    (idc elc : String)
    (hid : idColumna df.columns = some idc)
    (helem : elemColumna df.columns = some elc)
    (hent : df.columns.contains "Entidad" = true)
    (hrel : df.columns.contains "Relación" = true)
    (hnd : (df.rows.map (fun f => getCol f idc)).Nodup)
    (hwf : cp.total_procesados = cp.ids_procesados.dedup.length)
    (hlim : limite_activo cfg.max_procesar = false ∨
      (filtraNoProcesados cp idc df.rows).length ≤ cfg.max_procesar.getD 0) :
    ∃ res cp2 tr,
      procesar_datos cfg api cp df
        = (.ok (res, df.rows.length - yaProcesadas cp idc df.rows, cp2), tr) ∧
      cp2.total_procesados
        = cp.total_procesados + (df.rows.length - yaProcesadas cp idc df.rows) ∧
      procesar_datos cfg api cp2 df = (.ok ([], 0, cp2), []) := by
  have hcl := candidatos_sin_limite cfg cp idc df.rows hlim
  have hsum := filtra_mas_ya cp idc df.rows
  cases hF : filtraNoProcesados cp idc df.rows with
  | nil =>
      have hc0 : candidatos cfg cp idc df.rows = [] := by rw [hcl, hF]
      have hlen0 : df.rows.length - yaProcesadas cp idc df.rows = 0 := by
        rw [hF] at hsum
        simp at hsum
        omega
      refine ⟨[], cp, [], ?_, ?_, ?_⟩
      · rw [procesar_vacio cfg api cp df idc elc hid helem hent hrel hc0, hlen0]
      · omega
      · exact procesar_vacio cfg api cp df idc elc hid helem hent hrel hc0
  | cons f fs =>
      have hc1 : candidatos cfg cp idc df.rows = f :: fs := by rw [hcl, hF]
      set tf := df.columns.contains "fuerza_relacion" with htf
      set st := (f :: fs).foldl (paso api idc elc tf) (⟨[], cp.ids_procesados.dedup, cp, []⟩ : PasoSt) with hst
      have hnuevos : st.nuevos = cp.ids_procesados.dedup ++ (f :: fs).map (fun g => getCol g idc) := by
        rw [hst]
        exact foldl_paso_nuevos api idc elc tf (f :: fs) _
      set cpf := update_checkpoint (getCol ((f :: fs).getLast (List.cons_ne_nil f fs)) idc) st.nuevos with hcpf
      have hrun := procesar_no_vacio cfg api cp df idc elc hid helem hent hrel f fs hc1
      have hlenF : (f :: fs).length = df.rows.length - yaProcesadas cp idc df.rows := by
        rw [hF] at hsum
        omega
      refine ⟨st.resultados, cpf, st.escritos ++ [cpf], ?_, ?_, ?_⟩
      · rw [hrun, hlenF]
      · have : cpf.total_procesados = st.nuevos.length := rfl
        rw [this, hnuevos, List.length_append, List.length_map, hwf]
        omega
      · -- second run: everything is already processed
        have hmem : ∀ r ∈ df.rows, getCol r idc ∈ cpf.ids_procesados := by
          intro r hr
          have hcpfids : cpf.ids_procesados = st.nuevos := rfl
          rw [hcpfids, hnuevos]
          by_cases hx : (cp.ids_procesados.dedup).contains (getCol r idc) = true
          · refine List.mem_append.mpr (Or.inl ?_)
            simpa using hx
          · have hx2 : (cp.ids_procesados.dedup).contains (getCol r idc) = false := by simpa using hx
            refine List.mem_append.mpr (Or.inr ?_)
            have hrF : r ∈ filtraNoProcesados cp idc df.rows := by
              unfold filtraNoProcesados
              refine List.mem_filter.mpr ⟨hr, ?_⟩
              simpa using hx
            rw [hF] at hrF
            exact List.mem_map_of_mem _ hrF
        have hfil2 : filtraNoProcesados cpf idc df.rows = [] := filtra_nil_de_mem cpf idc df.rows hmem
        have hc2 : candidatos cfg cpf idc df.rows = [] := candidatos_nil_de_filtra cfg cpf idc df.rows hfil2
        exact procesar_vacio cfg api cpf df idc elc hid helem hent hrel hc2


/-- C1 witness: the amended theorem applied to a fresh checkpoint, the
default cap 5 and the two-row batch. -/
theorem c1_testigo :
    ∃ res cp2 tr,
      procesar_datos ⟨32, some 5⟩ apiValido cpVacio dfDos
        = (.ok (res, dfDos.rows.length - yaProcesadas cpVacio "ID" dfDos.rows, cp2), tr) ∧
      cp2.total_procesados
        = cpVacio.total_procesados + (dfDos.rows.length - yaProcesadas cpVacio "ID" dfDos.rows) ∧
      procesar_datos ⟨32, some 5⟩ apiValido cp2 dfDos = (.ok ([], 0, cp2), []) :=
  c1_teorema ⟨32, some 5⟩ apiValido cpVacio dfDos "ID" "Elemento Relacionado"
    rfl rfl rfl rfl (by decide) rfl (Or.inr (by decide))

/-- C2, counterexample: the in-place `save_checkpoint` write trace passes
through the truncated (empty) state, so with old content "a" and new
content "b" the trace is not atomic — an observable state is neither the
old nor the new full content. -/
theorem c2_contraejemplo :
    ¬ escrituraAtomica (save_checkpoint_estados "a" "b") "a" "b" := by
  unfold escrituraAtomica save_checkpoint_estados
  decide

/-- C2 (amended): both checkpoint writers (`CheckpointManager.save_checkpoint`
and `GestionCheckpoint.guardar_checkpoint`) write in place with
`open(path, "w")` followed by `json.dump`, so whenever the old and new
serializations are non-empty the trace of on-disk states is not atomic (a
crash can expose a half-written file); only the final state is the full
new checkpoint. -/
theorem c2_teorema (previo nuevo : String) (h1 : previo ≠ "") (h2 : nuevo ≠ "") :
    (¬ escrituraAtomica (save_checkpoint_estados previo nuevo) previo nuevo) ∧
    (save_checkpoint_estados previo nuevo).getLast? = some nuevo ∧
    (¬ escrituraAtomica (guardar_checkpoint_estados previo nuevo) previo nuevo) ∧
    (guardar_checkpoint_estados previo nuevo).getLast? = some nuevo := by
  refine ⟨?_, rfl, ?_, rfl⟩ <;>
    · intro h
      rcases h "" (by simp [save_checkpoint_estados, guardar_checkpoint_estados]) with hx | hx
      · exact h1 hx.symm
      · exact h2 hx.symm

/-- C2 witness: the amended theorem at the concrete contents "a" and "b". -/
theorem c2_testigo :
    (¬ escrituraAtomica (save_checkpoint_estados "a" "b") "a" "b") ∧
    (save_checkpoint_estados "a" "b").getLast? = some "b" ∧
    (¬ escrituraAtomica (guardar_checkpoint_estados "a" "b") "a" "b") ∧
    (guardar_checkpoint_estados "a" "b").getLast? = some "b" :=
  c2_teorema "a" "b" (by decide) (by decide)

/-- C3, counterexample to the claim as stated: a batch whose two rows both
carry the identifier 29 is filtered against the old checkpoint only once,
so the engine appends the id twice and the written checkpoint violates the
no-duplicates invariant (total still equals the list length). -/
theorem c3_contraejemplo :
    procesar_datos ⟨32, none⟩ apiValido cpVacio dfDup
      = (.ok ([], 2, ⟨some "29", ["29", "29"], 2⟩), [⟨some "29", ["29", "29"], 2⟩]) ∧
    ¬ (["29", "29"] : List String).Nodup :=
  ⟨rfl, by decide⟩

/-- C3 (amended): for every input batch whose rows carry pairwise distinct
identifiers, every checkpoint written during a successful `procesar_datos`
call (the periodic flushes and the final update) satisfies all three
invariants: no duplicate ids, `total_procesados` equal to the length of
`ids_procesados`, and a non-null `ultimo_id_procesado` that is a member of
`ids_procesados`.  With repeated identifiers in the batch the
no-duplicates invariant fails (see the counterexample). -/
theorem c3_teorema (cfg : Config) (api : Fila → ApiResp) (cp : Checkpoint) (df : DataFrame)
    (idc elc : String)
    (hid : idColumna df.columns = some idc)
    (helem : elemColumna df.columns = some elc)
    (hent : df.columns.contains "Entidad" = true)
    (hrel : df.columns.contains "Relación" = true)
    (hnd : (df.rows.map (fun f => getCol f idc)).Nodup) :
    ∀ res n cp2 tr, procesar_datos cfg api cp df = (.ok (res, n, cp2), tr) →
      ∀ c ∈ tr, cpInv c := by
  intro res n cp2 tr hrun c hc
  cases hcand : candidatos cfg cp idc df.rows with
  | nil =>
      rw [procesar_vacio cfg api cp df idc elc hid helem hent hrel hcand] at hrun
      have htr := congrArg Prod.snd hrun
      dsimp only at htr
      subst htr
      simp at hc
  | cons f fs =>
      rw [procesar_no_vacio cfg api cp df idc elc hid helem hent hrel f fs hcand] at hrun
      have htr := congrArg Prod.snd hrun
      dsimp only at htr
      subst htr
      have hnuevos := foldl_paso_nuevos api idc elc (df.columns.contains "fuerza_relacion")
        (f :: fs) (⟨[], cp.ids_procesados.dedup, cp, []⟩ : PasoSt)
      have hndall : (cp.ids_procesados.dedup ++ (f :: fs).map (fun g => getCol g idc)).Nodup := by
        have := nuevos_nodup cfg cp idc df.rows hnd
        rwa [hcand] at this
      rcases List.mem_append.mp hc with h1 | h1
      · refine foldl_paso_inv api idc elc (df.columns.contains "fuerza_relacion") (f :: fs)
          (⟨[], cp.ids_procesados.dedup, cp, []⟩ : PasoSt) ?_ ?_ c h1
        · simpa using hndall
        · intro c hc2
          simp at hc2
      · have hce : c = update_checkpoint (getCol ((f :: fs).getLast (List.cons_ne_nil f fs)) idc)
            (((f :: fs).foldl (paso api idc elc (df.columns.contains "fuerza_relacion"))
                ⟨[], cp.ids_procesados.dedup, cp, []⟩).nuevos) := by simpa using h1
        subst hce
        apply cpInv_update
        · rw [hnuevos]
          simpa using hndall
        · rw [hnuevos]
          refine List.mem_append.mpr (Or.inr ?_)
          exact List.mem_map_of_mem _ (List.getLast_mem (List.cons_ne_nil f fs))



/-- C3 witness: the final checkpoint written for the two-row distinct
batch satisfies the invariants. -/
theorem c3_testigo : cpInv ⟨some "2", ["1", "2"], 2⟩ :=
  c3_teorema ⟨32, some 5⟩ apiValido cpVacio dfDos "ID" "Elemento Relacionado"
    rfl rfl rfl rfl (by decide) [] 2 ⟨some "2", ["1", "2"], 2⟩
    [⟨some "2", ["1", "2"], 2⟩] rfl ⟨some "2", ["1", "2"], 2⟩ (by simp)

/-- C4, counterexample to the claim as stated: the response
"INVÁLIDO because X causes Y" is classified invalid, but its justification
is the upper-cased remainder "BECAUSE X CAUSES Y" (the source splits
`respuesta.upper()`), not the claimed "because X causes Y". -/
theorem c4_contraejemplo :
    (verificar_relacion "29" "Aspirina" "causa" "Urticaria" none
        (ApiResp.ok "INVÁLIDO because X causes Y")).validez = "inválido" ∧
    (verificar_relacion "29" "Aspirina" "causa" "Urticaria" none
        (ApiResp.ok "INVÁLIDO because X causes Y")).justificacion ≠ "because X causes Y" := by
  exact ⟨rfl, by decide⟩

/-- C4 (amended): a 200 response is classified válido exactly when its
upper-cased text contains VÁLIDO and does not contain INVÁLIDO; the
scenario response "INVÁLIDO because X causes Y" classifies as inválido
with justification "BECAUSE X CAUSES Y" — the stripped text following the
marker in the upper-cased response — and "VÁLIDO" classifies as válido
with empty justification. -/
theorem c4_teorema :
    (∀ i e1 r e2 f respuesta,
        (verificar_relacion i e1 r e2 f (ApiResp.ok respuesta)).validez = "válido"
          ↔ (pyContains (pyUpper respuesta) "VÁLIDO" = true ∧
             pyContains (pyUpper respuesta) "INVÁLIDO" = false)) ∧
    (verificar_relacion "29" "Aspirina" "causa" "Urticaria" none
        (ApiResp.ok "INVÁLIDO because X causes Y")).validez = "inválido" ∧
    (verificar_relacion "29" "Aspirina" "causa" "Urticaria" none
        (ApiResp.ok "INVÁLIDO because X causes Y")).justificacion = "BECAUSE X CAUSES Y" ∧
    (verificar_relacion "29" "Aspirina" "causa" "Urticaria" none
        (ApiResp.ok "VÁLIDO")).validez = "válido" ∧
    (verificar_relacion "29" "Aspirina" "causa" "Urticaria" none
        (ApiResp.ok "VÁLIDO")).justificacion = "" := by
  refine ⟨?_, rfl, by decide, rfl, rfl⟩
  intro i e1 r e2 f respuesta
  unfold verificar_relacion
  dsimp only
  by_cases h1 : pyContains (pyUpper respuesta) "VÁLIDO" = true
  · by_cases h2 : pyContains (pyUpper respuesta) "INVÁLIDO" = false
    · simp [h1, h2]
    · have h2b : pyContains (pyUpper respuesta) "INVÁLIDO" = true := by
        cases hx : pyContains (pyUpper respuesta) "INVÁLIDO" <;> simp_all
      simp [h1, h2b]
  · have h1b : pyContains (pyUpper respuesta) "VÁLIDO" = false := by
      cases hx : pyContains (pyUpper respuesta) "VÁLIDO" <;> simp_all
    simp [h1b]

/-- C5: whenever the nested-extended rule of `_parse_data_entry` matches an
entry — in particular on any entry the legacy rule would also accept —
the parser returns that rule's Extended-7 record and never a Legacy-4
record, because the grammars are tried in strict order with first match
winning. -/
theorem c5_teorema (entry : String) (l c1 e r c2 el sc : String)
    (h : parse_nested entry = some (l, c1, e, r, c2, el, sc)) :
    parse_data_entry entry = .ext7 l c1 e r c2 el sc ∧
    ∀ a b rel elem, parse_data_entry entry ≠ .legacy4 a b rel elem := by
  constructor
  · unfold parse_data_entry
    rw [h]
  · intro a b rel elem hq
    unfold parse_data_entry at hq
    rw [h] at hq
    exact Parsed.noConfusion hq

set_option synthInstance.maxSize 400 in
set_option maxRecDepth 40000 in
/-- C5 witness: a crafted entry that exercises the nested grammar (its
entity embeds parentheses) is classified Extended-7 by the first rule. -/
theorem c5_testigo :
    parse_data_entry "1: (2 (a(b)c), r, 3 (d)) 0.5," = .ext7 "1" "2" "a(b)c" "r" "3" "d" "0.5" :=
  (c5_teorema "1: (2 (a(b)c), r, 3 (d)) 0.5," "1" "2" "a(b)c" "r" "3" "d" "0.5" (by decide)).1

/-- C6: when the input lacks a required column, `procesar_datos` raises the
specific message for that column (checked in source order: identifier,
related element, Entidad, Relación), performs no processing and writes no
checkpoint — the write trace is empty and the checkpoint is untouched. -/
theorem c6_teorema (cfg : Config) (api : Fila → ApiResp) (cp : Checkpoint) (df : DataFrame) :
    (idColumna df.columns = none →
       procesar_datos cfg api cp df
         = (.error "No se encontró la columna de identificación en los datos.", [])) ∧
    (∀ idc, idColumna df.columns = some idc → elemColumna df.columns = none →
       procesar_datos cfg api cp df
         = (.error "No se encontró la columna del elemento relacionado en los datos.", [])) ∧
    (∀ idc elc, idColumna df.columns = some idc → elemColumna df.columns = some elc →
       df.columns.contains "Entidad" = false →
       procesar_datos cfg api cp df
         = (.error "No se encontró la columna \x27Entidad\x27 en los datos.", [])) ∧
    (∀ idc elc, idColumna df.columns = some idc → elemColumna df.columns = some elc →
       df.columns.contains "Entidad" = true → df.columns.contains "Relación" = false →
       procesar_datos cfg api cp df
         = (.error "No se encontró la columna \x27Relación\x27 en los datos.", [])) := by
  refine ⟨?_, ?_, ?_, ?_⟩
  · intro h
    unfold procesar_datos
    rw [h]
  · intro idc h1 h2
    unfold procesar_datos
    rw [h1, h2]
  · intro idc elc h1 h2 h3
    unfold procesar_datos
    rw [h1, h2]
    simp only [h3, Bool.false_eq_true, if_false]
  · intro idc elc h1 h2 h3 h4
    unfold procesar_datos
    rw [h1, h2]
    simp only [h3, h4, if_true, Bool.false_eq_true, if_false]

/-- C6 witness: a schemaless input fails with the identifier-column
message and an empty write trace. -/
theorem c6_testigo :
    procesar_datos ⟨32, some 5⟩ apiValido cpVacio ⟨["X"], []⟩
      = (.error "No se encontró la columna de identificación en los datos.", []) :=
  (c6_teorema ⟨32, some 5⟩ apiValido cpVacio ⟨["X"], []⟩).1 rfl

/-- C7, counterexample to the claim as stated: loading a path with the
unsupported extension .pdf does not surface an error — the catch-all
handler returns an empty DataFrame, even though the reader oracle would
have produced data; the raised message (naming the extension) is visible
only before the handler. -/
theorem c7_contraejemplo :
    load_csv_or_excel (fun _ => .ok ⟨["A"], [[some "dato"]]⟩) "datos.pdf" = ⟨[], []⟩ ∧
    intento_carga (fun _ => .ok ⟨["A"], [[some "dato"]]⟩) "datos.pdf"
      = .error "Formato de archivo no soportado: .pdf" :=
  ⟨rfl, rfl⟩

/-- C7 (amended): for every path whose lower-cased extension is not one of
.csv, .xlsx, .xls, .txt, the dispatch raises the `ValueError` naming the
extension, but `load_csv_or_excel` swallows it in its catch-all handler
and returns an empty DataFrame to the caller instead of failing. -/
theorem c7_teorema (leer : String → Except String TablaOpt) (path : String)
    (h : ¬ (pyLower (splitextExt path)
            ∈ [".csv", ".xlsx", ".xls", ".txt"])) :
    intento_carga leer path
      = .error ("Formato de archivo no soportado: "
          ++ pyLower (splitextExt path)) ∧
    load_csv_or_excel leer path = ⟨[], []⟩ := by
  simp only [List.mem_cons, List.mem_singleton, not_or] at h
  obtain ⟨h1, h2, h3, h4⟩ := h
  have he : intento_carga leer path
      = .error ("Formato de archivo no soportado: "
          ++ pyLower (splitextExt path)) := by
    unfold intento_carga
    simp [h1, h2, h3, h4]
  refine ⟨he, ?_⟩
  unfold load_csv_or_excel
  rw [he]

/-- C7 witness: the amended theorem at the path "informe.docx". -/
theorem c7_testigo :
    intento_carga (fun _ => .ok ⟨[], []⟩) "informe.docx"
      = .error ("Formato de archivo no soportado: "
          ++ pyLower (splitextExt "informe.docx")) ∧
    load_csv_or_excel (fun _ => .ok ⟨[], []⟩) "informe.docx" = ⟨[], []⟩ :=
  c7_teorema (fun _ => .ok ⟨[], []⟩) "informe.docx" (by decide)

/-- C8: the claim is right and the code is wrong — on a transport failure
(here HTTP 500) `verificar_relacion` returns a dictionary carrying only
id, validez and justificacion: the entity and relation fields required by
the VerificationOutcome contract (and read unconditionally by
`generar_reporte`) are absent, unlike on the success path. -/
theorem c8_teorema :
    (verificar_relacion "29" "Ácido acetilsalicílico" "Treatment may cause Symptom" "Urticaria"
        none (ApiResp.httpErr 500)).validez = "error" ∧
    (verificar_relacion "29" "Ácido acetilsalicílico" "Treatment may cause Symptom" "Urticaria"
        none (ApiResp.httpErr 500)).entidad1 = none ∧
    (verificar_relacion "29" "Ácido acetilsalicílico" "Treatment may cause Symptom" "Urticaria"
        none (ApiResp.httpErr 500)).relacion = none ∧
    (verificar_relacion "29" "Ácido acetilsalicílico" "Treatment may cause Symptom" "Urticaria"
        none (ApiResp.httpErr 500)).entidad2 = none ∧
    (verificar_relacion "29" "Ácido acetilsalicílico" "Treatment may cause Symptom" "Urticaria"
        none (ApiResp.httpErr 500)).justificacion = "Error API: 500" ∧
    (verificar_relacion "29" "Ácido acetilsalicílico" "Treatment may cause Symptom" "Urticaria"
        none (ApiResp.ok "VÁLIDO")).entidad1 = some "Ácido acetilsalicílico" :=
  ⟨rfl, rfl, rfl, rfl, rfl, rfl⟩

/-- C9, counterexample to the claim as stated: a row with one populated
field and one null is not "entirely empty", yet `_remove_garbage_data`
(pandas `dropna()`) drops it; the spec-worded cleaner would keep it. -/
theorem c9_contraejemplo :
    remove_garbage_data ⟨["Entidad", "Relación"], [[some "Aspirina", none]]⟩
      = ⟨["Entidad", "Relación"], []⟩ ∧
    quitaFilasTotalmenteVacias ⟨["Entidad", "Relación"], [[some "Aspirina", none]]⟩
      = ⟨["Entidad", "Relación"], [[some "Aspirina", none]]⟩ ∧
    process_dataframe ⟨["Entidad", "Relación"], [[some "Aspirina", none]]⟩ none true
      = ⟨["Entidad", "Relación"], []⟩ :=
  ⟨rfl, rfl, rfl⟩

/-- C9 (amended): with the cleanup option enabled, the loader keeps exactly
the rows all of whose fields are present — a row is dropped as soon as any
single field is null, not only when it is entirely empty. -/
theorem c9_teorema (t : TablaOpt) :
    process_dataframe t none true = remove_garbage_data t ∧
    (remove_garbage_data t).rows = t.rows.filter (fun r => r.all (fun c => c.isSome)) ∧
    (∀ r, r ∈ (remove_garbage_data t).rows
       ↔ (r ∈ t.rows ∧ r.all (fun c => c.isSome) = true)) := by
  refine ⟨rfl, rfl, ?_⟩
  intro r
  exact List.mem_filter

/-- C10: the truncation step of `procesar_datos`: with the cap unset
(`None`) or 0 the candidate set is exactly the not-yet-processed rows (no
truncation to zero rows); with a positive cap at least the candidate count
nothing is truncated either; only a positive cap smaller than the
candidate count truncates, to the first `n` rows in original order. -/
theorem c10_teorema (cfg : Config) (cp : Checkpoint) (idc : String) (rows : List Fila) :
    ((cfg.max_procesar = none ∨ cfg.max_procesar = some 0) →
        candidatos cfg cp idc rows = filtraNoProcesados cp idc rows) ∧
    (∀ n, cfg.max_procesar = some n → 0 < n →
        (filtraNoProcesados cp idc rows).length ≤ n →
        candidatos cfg cp idc rows = filtraNoProcesados cp idc rows) ∧
    (∀ n, cfg.max_procesar = some n → 0 < n →
        n < (filtraNoProcesados cp idc rows).length →
        candidatos cfg cp idc rows = (filtraNoProcesados cp idc rows).take n) := by
  refine ⟨?_, ?_, ?_⟩
  · intro h
    apply candidatos_sin_limite
    left
    rcases h with h | h <;> simp [limite_activo, h]
  · intro n hn hpos hle
    apply candidatos_sin_limite
    right
    rw [hn]
    simpa using hle
  · intro n hn hpos hlt
    simp only [candidatos]
    rw [hn]
    have hact : limite_activo (some n) = true := by
      simp [limite_activo]
      omega
    simp [hact, hlt]

/-- C10 witness: with the cap `None` every not-yet-processed row of the
two-row batch is considered. -/
theorem c10_testigo :
    candidatos ⟨32, none⟩ cpVacio "ID" dfDos.rows = filtraNoProcesados cpVacio "ID" dfDos.rows :=
  (c10_teorema ⟨32, none⟩ cpVacio "ID" dfDos.rows).1 (Or.inl rfl)

end CopenMed
